import Mathlib

/-!
A shallow embedding of the ICSP programmer core in `src/oldfirmware/pic.c`:
the program-counter state machine (`_enter_program_mode`, `_exit_program_mode`,
`_set_program_counter`), the word-access layer (`_read_word`,
`_read_config_word`), the detection command (`pic_command_detect_device`,
`_init_device`) and the streaming read command (`pic_command_read`).

Machine integers are modelled as `Nat`; the only place 16-bit truncation
matters (the raw word shifted out of the device by `_send_read_command`,
which accumulates exactly 16 sampled bits) is modelled with an explicit
`% 65536`.  GPIO pin wiggling and microsecond delays are external
collaborators (spec sect. 6) and are abstracted into the event trace: each
call to the bit-codec layer (`_send_simple_command`, `_send_write_command`,
`_send_read_command`) and each power-up / power-down of the target is one
event.  Responses emitted through `sp_tcpserver_response` are recorded as
(status, payload) pairs.
-/

/-- The session states `STATE_IDLE` / `STATE_PROGRAM` / `STATE_CONFIG`
from the firmware (the constants live in the missing `pic_io.h` header;
only their distinctness matters). -/
inductive PState
  | Idle
  | Program
  | Config
deriving DecidableEq

/-- The mutable session of pic.c: the static `_state` and
`_program_counter` variables. -/
structure Machine where
  st : PState
  pc : ℕ
deriving DecidableEq

/-- Observable hardware interactions of one operation, in order:
`evEnter`/`evExit` are the power-up / power-down sequences of
`_enter_program_mode` / `_exit_program_mode` (emitted only when the guard
lets the body run), the others are the three bit-codec entry points. -/
inductive Ev
  | evEnter
  | evExit
  | evWrite (cmd data : ℕ)
  | evSimple (cmd : ℕ)
  | evRead (cmd : ℕ)
deriving DecidableEq

/-- Modelled from the spec: the ICSP opcode constants from the missing
`pic_io.h` header.  Only their distinctness is ever used. -/
def CMD_LOAD_CONFIG : ℕ := 0

/-- Modelled from the spec: opcode of the program-memory read command. -/
def CMD_READ_PROGRAM_MEMORY : ℕ := 4

/-- Modelled from the spec: opcode of the data-memory read command. -/
def CMD_READ_DATA_MEMORY : ℕ := 5

/-- Modelled from the spec: opcode of the increment-address command. -/
def CMD_INCREMENT_ADDRESS : ℕ := 6

/-- Modelled from the spec: flash-technology tag `FLASH4` from the missing
`pic_devices.h` header (opaque to every claim). -/
def FLASH4 : ℕ := 4

/-- Modelled from the spec: flash-technology tag `EEPROM` from the missing
`pic_devices.h` header (opaque to every claim). -/
def EEPROM : ℕ := 1

/-- The ten file-scope device-parameter variables of pic.c (lines 15-24)
bundled as the active profile of the session. -/
structure Profile where
  programEnd : ℕ
  configStart : ℕ
  configEnd : ℕ
  dataStart : ℕ
  dataEnd : ℕ
  reservedStart : ℕ
  reservedEnd : ℕ
  configSave : ℕ
  progFlashType : ℕ
  dataFlashType : ℕ
deriving DecidableEq

/-- The default profile: the initializers of the file-scope variables
(pic.c lines 15-24), also re-installed on detection failure (lines 354-363). -/
def defaultProfile : Profile where
  programEnd := 0x07FF
  configStart := 0x2000
  configEnd := 0x2007
  dataStart := 0x2100
  dataEnd := 0x217F
  reservedStart := 0x0800
  reservedEnd := 0x07FF
  configSave := 0x0000
  progFlashType := FLASH4
  dataFlashType := EEPROM

/-- The data-memory range test `addr >= dataStart && addr <= dataEnd`
(pic.c line 152). -/
abbrev inData (p : Profile) (a : ℕ) : Prop :=
  p.dataStart ≤ a ∧ a ≤ p.dataEnd

/-- The config-memory range test `addr >= configStart && addr <= configEnd`
(pic.c line 161). -/
abbrev inConfig (p : Profile) (a : ℕ) : Prop :=
  p.configStart ≤ a ∧ a ≤ p.configEnd

/-- The three memory regions of the flat address space. -/
inductive Region
  | program
  | config
  | data
deriving DecidableEq

/-- The classification chain of `_set_program_counter` (pic.c lines
152/161/181): Data first, then Config, Program as the fallback. -/
def regionOf (p : Profile) (a : ℕ) : Region :=
  if inData p a then Region.data
  else if inConfig p a then Region.config
  else Region.program

/-- `_enter_program_mode` (pic.c lines 29-52): a no-op unless idle;
otherwise powers the device up and lands on word 0 of program memory. -/
def enterProgramMode (m : Machine) : Machine × List Ev :=
  if m.st ≠ PState.Idle then (m, [])
  else (⟨PState.Program, 0⟩, [Ev.evEnter])

/-- `_exit_program_mode` (pic.c lines 57-73): a no-op when idle; otherwise
powers the device down, returning to idle with the counter cleared. -/
def exitProgramMode (m : Machine) : Machine × List Ev :=
  if m.st = PState.Idle then (m, [])
  else (⟨PState.Idle, 0⟩, [Ev.evExit])

/-- `_set_program_counter` (pic.c lines 151-194).  The trailing while loop
(lines 190-193) is rendered in closed form: it sends one increment command
per step until the counter reaches `addr`, so it leaves the counter at
`max pc addr` and emits `addr - pc` increment events (none when the counter
is already at or past `addr`). -/
def setProgramCounter (p : Profile) (m : Machine) (addr : ℕ) : Machine × List Ev :=
  if inData p addr then
    -- Data memory (lines 152-160).
    let a := addr - p.dataStart
    let r :=
      if m.st ≠ PState.Program ∨ a < m.pc then
        let r1 := exitProgramMode m
        let r2 := enterProgramMode r1.1
        (r2.1, r1.2 ++ r2.2)
      else (m, ([] : List Ev))
    (⟨r.1.st, max r.1.pc a⟩,
      r.2 ++ List.replicate (a - r.1.pc) (Ev.evSimple CMD_INCREMENT_ADDRESS))
  else if inConfig p addr then
    -- Configuration memory (lines 161-180).
    let a := addr - p.configStart
    let r :=
      if m.st = PState.Idle then
        let r1 := enterProgramMode m
        (Machine.mk PState.Config r1.1.pc, r1.2 ++ [Ev.evWrite CMD_LOAD_CONFIG 0])
      else if m.st = PState.Program then
        (Machine.mk PState.Config 0, [Ev.evWrite CMD_LOAD_CONFIG 0])
      else if a < m.pc then
        let r1 := exitProgramMode m
        let r2 := enterProgramMode r1.1
        (Machine.mk PState.Config r2.1.pc,
          r1.2 ++ r2.2 ++ [Ev.evWrite CMD_LOAD_CONFIG 0])
      else (m, ([] : List Ev))
    (⟨r.1.st, max r.1.pc a⟩,
      r.2 ++ List.replicate (a - r.1.pc) (Ev.evSimple CMD_INCREMENT_ADDRESS))
  else
    -- Program memory (lines 181-188).
    let r :=
      if m.st ≠ PState.Program ∨ addr < m.pc then
        let r1 := exitProgramMode m
        let r2 := enterProgramMode r1.1
        (r2.1, r1.2 ++ r2.2)
      else (m, ([] : List Ev))
    (⟨r.1.st, max r.1.pc addr⟩,
      r.2 ++ List.replicate (addr - r.1.pc) (Ev.evSimple CMD_INCREMENT_ADDRESS))

/-- The target PIC device, an external collaborator: its three memories,
each a total function from a region-relative word offset to the raw value
the silicon shifts out. -/
structure Device where
  prog : ℕ → ℕ
  cfg : ℕ → ℕ
  dat : ℕ → ℕ

/-- Modelled from the spec: the 16-bit wire word the target device answers
to a read opcode (`_send_read_command` accumulates exactly 16 sampled
bits, hence the `% 65536`).  The device delivers the word of the memory
selected by the session mirror: data memory for the data-read opcode,
otherwise config or program memory according to whether a load-config
directive is in force, at the mirrored counter. -/
def rawRead (d : Device) (m : Machine) (cmd : ℕ) : ℕ :=
  (if cmd = CMD_READ_DATA_MEMORY then d.dat m.pc
   else if m.st = PState.Config then d.cfg m.pc
   else d.prog m.pc) % 65536

/-- `_read_word` (pic.c lines 213-219): position the counter, then read
with the region-appropriate opcode and strip framing bits. -/
def readWord (p : Profile) (d : Device) (m : Machine) (addr : ℕ) :
    ℕ × Machine × List Ev :=
  let r := setProgramCounter p m addr
  if inData p addr then
    ((rawRead d r.1 CMD_READ_DATA_MEMORY >>> 1) &&& 0x00FF, r.1,
      r.2 ++ [Ev.evRead CMD_READ_DATA_MEMORY])
  else
    ((rawRead d r.1 CMD_READ_PROGRAM_MEMORY >>> 1) &&& 0x3FFF, r.1,
      r.2 ++ [Ev.evRead CMD_READ_PROGRAM_MEMORY])

/-- `_read_config_word` (pic.c lines 228-252): the relative-addressing
config read used by detection; same branch structure as the config arm of
`_set_program_counter`, then a program-memory-opcode read. -/
def readConfigWord (d : Device) (m : Machine) (addr : ℕ) :
    ℕ × Machine × List Ev :=
  let r :=
    if m.st = PState.Idle then
      let r1 := enterProgramMode m
      (Machine.mk PState.Config r1.1.pc, r1.2 ++ [Ev.evWrite CMD_LOAD_CONFIG 0])
    else if m.st = PState.Program then
      (Machine.mk PState.Config 0, [Ev.evWrite CMD_LOAD_CONFIG 0])
    else if addr < m.pc then
      let r1 := exitProgramMode m
      let r2 := enterProgramMode r1.1
      (Machine.mk PState.Config r2.1.pc,
        r1.2 ++ r2.2 ++ [Ev.evWrite CMD_LOAD_CONFIG 0])
    else (m, ([] : List Ev))
  let s : Machine := ⟨r.1.st, max r.1.pc addr⟩
  ((rawRead d s CMD_READ_PROGRAM_MEMORY >>> 1) &&& 0x3FFF, s,
    r.2 ++ List.replicate (addr - r.1.pc) (Ev.evSimple CMD_INCREMENT_ADDRESS)
      ++ [Ev.evRead CMD_READ_PROGRAM_MEMORY])

/-- A device whose every memory cell reads zero. -/
def zeroDevice : Device where
  prog := fun _ => 0
  cfg := fun _ => 0
  dat := fun _ => 0

/-- The response statuses the core hands to `sp_tcpserver_response` or
returns.  `SP_OK` is in `sp.h`; the other three codes come from headers not
in the repository, so they are modelled from the spec (sect. 6): only their
identity matters. -/
inductive SPStatus
  | ok
  | errDeviceNotDetected
  | readMore
  | readDone
deriving DecidableEq

/-- One table entry of the built-in `devices` registry: the fields
`_init_device` (pic.c lines 258-269) reads from `struct deviceInfo`.
The struct itself lives in the missing `pic_devices.h` header; the field
list is modelled from the spec's DeviceProfile (sect. 3). -/
structure DeviceInfo where
  name : String
  deviceId : ℕ
  programSize : ℕ
  configStart : ℕ
  configSize : ℕ
  dataStart : ℕ
  dataSize : ℕ
  reservedWords : ℕ
  configSave : ℕ
  progFlashType : ℕ
  dataFlashType : ℕ
deriving DecidableEq

/-- `_init_device` (pic.c lines 258-269): install a table entry as the
active profile.  (`uint64` wraparound of `programEnd - reservedWords + 1`
for oversized reserved counts is not modelled; `Nat` subtraction truncates
instead.) -/
def initDevice (dev : DeviceInfo) : Profile :=
  let programEnd' := dev.programSize - 1
  { programEnd := programEnd'
    configStart := dev.configStart
    configEnd := dev.configStart + dev.configSize - 1
    dataStart := dev.dataStart
    dataEnd := dev.dataStart + dev.dataSize - 1
    reservedStart := programEnd' - dev.reservedWords + 1
    reservedEnd := programEnd'
    configSave := dev.configSave
    progFlashType := dev.progFlashType
    dataFlashType := dev.dataFlashType }

/-- Modelled from the spec: the six fixed config-memory offsets read during
detection (four user ids, the device id, the config word), defined in the
missing `pic_devices.h` header; the offsets follow the PIC16 config-space
layout the spec describes. -/
def DEV_USERID0 : ℕ := 0

/-- Modelled from the spec: second user-id offset. -/
def DEV_USERID1 : ℕ := 1

/-- Modelled from the spec: third user-id offset. -/
def DEV_USERID2 : ℕ := 2

/-- Modelled from the spec: fourth user-id offset. -/
def DEV_USERID3 : ℕ := 3

/-- Modelled from the spec: device-id offset. -/
def DEV_ID : ℕ := 6

/-- Modelled from the spec: config-word offset. -/
def DEV_CONFIG_WORD : ℕ := 7

/-- Everything `pic_command_detect_device` leaves behind: the session
state, the responses emitted through `sp_tcpserver_response` (status,
payload string, payload length), the active profile, and the C return
value — `none` models the bare value-less `return;` at pic.c line 324. -/
structure DetectOut where
  m : Machine
  responses : List (SPStatus × Option String × ℕ)
  profile : Profile
  ret : Option SPStatus
deriving DecidableEq

/-- The scan loop of `pic_command_detect_device` (pic.c lines 316-320):
`while (!word && addr < 16) { word |= _read_word(addr); ++addr; }`.
Fuel-indexed; fuel 16 with `addr` starting at 0 covers every iteration the
C loop can make. -/
def scanLoop (p : Profile) (d : Device) :
    ℕ → ℕ → ℕ → Machine → ℕ × Machine
  | 0, word, _, m => (word, m)
  | fuel + 1, word, addr, m =>
      if word = 0 ∧ addr < 16 then
        let r := readWord p d m addr
        scanLoop p d fuel (word ||| r.1) (addr + 1) r.2.1
      else (word, m)

/-- The common tail of `pic_command_detect_device` (pic.c lines 328-374):
scan the sentinel-terminated `devices` table (modelled as a list, first
match wins) for the masked device id; on a match emit the name with
`SP_OK` and install the entry's profile, otherwise restore the default
profile and emit / return `SP_ERR_DEVICE_NOT_DETECTED`.  Either way the
device is powered down at the end. -/
def detectFinish (table : List DeviceInfo) (deviceId : ℕ) (m : Machine) :
    DetectOut :=
  match table.find? (fun e => e.deviceId == deviceId &&& 0xFFE0) with
  | some e =>
      { m := (exitProgramMode m).1
        responses := [(SPStatus.ok, some e.name, e.name.length)]
        profile := initDevice e
        ret := some SPStatus.ok }
  | none =>
      { m := (exitProgramMode m).1
        responses := [(SPStatus.errDeviceNotDetected, none, 0)]
        profile := defaultProfile
        ret := some SPStatus.errDeviceNotDetected }

/-- The six identification reads of `pic_command_detect_device` (pic.c
lines 295-300), in source order, returning the six values and the session
they leave behind. -/
def detectReads (d : Device) (m0 : Machine) :
    ℕ × ℕ × ℕ × ℕ × ℕ × ℕ × Machine :=
  let r0 := readConfigWord d m0 DEV_USERID0
  let r1 := readConfigWord d r0.2.1 DEV_USERID1
  let r2 := readConfigWord d r1.2.1 DEV_USERID2
  let r3 := readConfigWord d r2.2.1 DEV_USERID3
  let r4 := readConfigWord d r3.2.1 DEV_ID
  let r5 := readConfigWord d r4.2.1 DEV_CONFIG_WORD
  (r0.1, r1.1, r2.1, r3.1, r4.1, r5.1, r5.2.1)

/-- The decision phase of `pic_command_detect_device` (pic.c lines
302-375), taking the six identification words and the session
`detectReads` left behind: the erased-or-absent device-id heuristic with
its 16-word program-memory scan, then the table match.  In the all-zero
case (lines 321-325) the function prints `ERROR`, powers down and leaves
with a bare `return;`: no response is emitted and no defined status is
returned (`ret := none`). -/
def detectCore (table : List DeviceInfo) (d : Device) (p : Profile)
    (R : ℕ × ℕ × ℕ × ℕ × ℕ × ℕ × Machine) : DetectOut :=
  let deviceId := R.2.2.2.2.1
  let configWord := R.2.2.2.2.2.1
  let m6 := R.2.2.2.2.2.2
  if deviceId = 0 ∨ deviceId = 0x3FFF then
    let word0 := R.1 ||| R.2.1 ||| R.2.2.1 ||| R.2.2.2.1 ||| configWord
    let s := scanLoop p d 16 word0 0 m6
    if s.1 = 0 then
      { m := (exitProgramMode s.2).1
        responses := []
        profile := p
        ret := none }
    else
      detectFinish table 0 s.2
  else
    detectFinish table deviceId m6

/-- `pic_command_detect_device` (pic.c lines 288-375): reset, read the six
identification words with relative config addressing (`detectReads`),
then decide and respond (`detectCore`). -/
def pic_command_detect_device (table : List DeviceInfo) (d : Device)
    (p : Profile) (m : Machine) : DetectOut :=
  detectCore table d p (detectReads d (exitProgramMode m).1)

/-- Everything `pic_command_read` leaves behind: the session state, the
byte offsets of the 4-byte serializations into the 1024-byte buffer (one
per word, in order), the responses emitted (status, payload length), and
the returned status. -/
structure ReadOut where
  m : Machine
  writes : List ℕ
  responses : List (SPStatus × ℕ)
  ret : SPStatus
deriving DecidableEq

/-- The loop of `pic_command_read` (pic.c lines 386-399), by recursion on
the number of remaining words (`start <= end` holds for exactly
`end + 1 - start` iterations): read a word, serialize it at byte offset
`count * 4`, and after incrementing `count` emit a 1024-byte
`SP_STATUS_READ_MORE` response when `count == 256` (`count` is never
reset).  The activity-LED toggle at lines 394-398 is cosmetic (spec
sect. 4.5) and not modelled. -/
def readLoop (p : Profile) (d : Device) :
    ℕ → Machine → ℕ → ℕ → Machine × List ℕ × List (SPStatus × ℕ)
  | 0, m, _, _ => (m, [], [])
  | n + 1, m, start, count =>
      let r := readWord p d m start
      let rest := readLoop p d n r.2.1 (start + 1) (count + 1)
      (rest.1, count * 4 :: rest.2.1,
        (if count + 1 = 256 then [(SPStatus.readMore, 1024)] else [])
          ++ rest.2.2)

/-- `pic_command_read` (pic.c lines 379-402) for a request decoding to the
inclusive flat range `start .. endAddr`: run the loop, then emit the empty
`SP_STATUS_READ_DONE` response and return `SP_OK`. -/
def pic_command_read (p : Profile) (d : Device) (m : Machine)
    (start endAddr : ℕ) : ReadOut :=
  let r := readLoop p d (endAddr + 1 - start) m start 0
  { m := r.1
    writes := r.2.1
    responses := r.2.2 ++ [(SPStatus.readDone, 0)]
    ret := SPStatus.ok }

/-- The 14-bit value a config-memory read yields once the counter sits at
offset `i`: the raw device word with framing bits stripped, exactly the
expression at pic.c line 251. -/
def cfgReadValue (d : Device) (i : ℕ) : ℕ :=
  ((d.cfg i % 65536) >>> 1) &&& 0x3FFF


/-- Modelled from the spec: one representative entry of the built-in
`devices` table (from the missing `pic_devices.h`). -/
def sampleTable : List DeviceInfo :=
  [{ name := "pic16f628a"
     deviceId := 0x1060
     programSize := 0x800
     configStart := 0x2000
     configSize := 8
     dataStart := 0x2100
     dataSize := 128
     reservedWords := 0
     configSave := 0
     progFlashType := FLASH4
     dataFlashType := EEPROM }]

/-- A legacy device: no readable device id (reads 0), but user-id word 0
reads nonzero (raw `2`, i.e. value 1 after framing-bit strip). -/
def legacyDevice : Device where
  prog := fun _ => 0
  cfg := fun i => if i = 0 then 2 else 0
  dat := fun _ => 0


/-! ## Helper lemmas about `_set_program_counter` -/

/-- The session `_set_program_counter` leaves behind: the state matching
the target's region and the counter at the region-relative offset. -/
lemma setPC_machine (p : Profile) (m : Machine) (a : ℕ) :
    (setProgramCounter p m a).1 =
      if inData p a then ⟨PState.Program, a - p.dataStart⟩
      else if inConfig p a then ⟨PState.Config, a - p.configStart⟩
      else ⟨PState.Program, a⟩ := by
  obtain ⟨st, pc⟩ := m
  unfold setProgramCounter enterProgramMode exitProgramMode
  cases st
  all_goals
    repeat' first
      | omega
      | split_ifs
      | simp_all [Nat.max_def]

/-- Exactly when `_set_program_counter` powers the device down (the body
of `_exit_program_mode` runs): a reset from a powered state. -/
lemma setPC_count_exit (p : Profile) (m : Machine) (a : ℕ) :
    ((setProgramCounter p m a).2).count Ev.evExit =
      if inData p a then
        (if m.st ≠ PState.Idle ∧ (m.st ≠ PState.Program ∨ a - p.dataStart < m.pc)
          then 1 else 0)
      else if inConfig p a then
        (if m.st = PState.Config ∧ a - p.configStart < m.pc then 1 else 0)
      else
        (if m.st ≠ PState.Idle ∧ (m.st ≠ PState.Program ∨ a < m.pc)
          then 1 else 0) := by
  obtain ⟨st, pc⟩ := m
  unfold setProgramCounter enterProgramMode exitProgramMode
  cases st
  all_goals
    repeat' first
      | omega
      | split_ifs
      | simp_all [List.count_append, List.count_replicate, List.count_cons,
          List.count_nil]

/-- Exactly when `_set_program_counter` powers the device up (the body of
`_enter_program_mode` runs): a reset, or the initial entry from idle. -/
lemma setPC_count_enter (p : Profile) (m : Machine) (a : ℕ) :
    ((setProgramCounter p m a).2).count Ev.evEnter =
      if inData p a then
        (if m.st ≠ PState.Program ∨ a - p.dataStart < m.pc then 1 else 0)
      else if inConfig p a then
        (if m.st = PState.Idle ∨ (m.st = PState.Config ∧ a - p.configStart < m.pc)
          then 1 else 0)
      else
        (if m.st ≠ PState.Program ∨ a < m.pc then 1 else 0) := by
  obtain ⟨st, pc⟩ := m
  unfold setProgramCounter enterProgramMode exitProgramMode
  cases st
  all_goals
    repeat' first
      | omega
      | split_ifs
      | simp_all [List.count_append, List.count_replicate, List.count_cons,
          List.count_nil]

/-! ## Claims -/

/-- C8: when `set_program_counter(addr)` returns, the hardware counter
equals the region-relative offset of `addr` (`addr - dataStart` for Data,
`addr - configStart` for Config, `addr` itself for Program) and the state
is `InProgram` for Program and Data targets and `InConfig` for Config
targets (regions classified as in the code: Data, then Config, then
Program as fallback). -/
theorem c8_set_program_counter_post (p : Profile) (m : Machine) (addr : ℕ) :
    (setProgramCounter p m addr).1 =
      if inData p addr then ⟨PState.Program, addr - p.dataStart⟩
      else if inConfig p addr then ⟨PState.Config, addr - p.configStart⟩
      else ⟨PState.Program, addr⟩ :=
  setPC_machine p m addr

/-- C5 counterexample: with the session in `STATE_PROGRAM` (counter 0) and
the target `0x2000` — a Config-region address under the default profile,
hence a different region than the one the session is in — the operation
performs no exit/enter reset cycle at all: it emits only the load-config
write command. -/
theorem c5_counterexample :
    regionOf defaultProfile 0x2000 = Region.config ∧
    ((setProgramCounter defaultProfile ⟨PState.Program, 0⟩ 0x2000).2).count
        Ev.evEnter = 0 ∧
    ((setProgramCounter defaultProfile ⟨PState.Program, 0⟩ 0x2000).2).count
        Ev.evExit = 0 ∧
    (setProgramCounter defaultProfile ⟨PState.Program, 0⟩ 0x2000).2
        = [Ev.evWrite CMD_LOAD_CONFIG 0] := by
  decide

/-- C5 amended: `set_program_counter` powers the device down exactly when
it resets from a powered state — for a Data or Program target, when the
session is in config mode or moving backward in-region; for a Config
target, only when already in config mode and moving backward — and powers
it up exactly on those resets plus the initial entries from idle.  A
Config target reached from `InProgram` is served by the load-config
command alone, and a forward Data or Program target from `InProgram` needs
no reset even when the previous address lay in the other of those two
regions. -/
theorem c5_amended_reset_characterization (p : Profile) (m : Machine) (addr : ℕ) :
    (((setProgramCounter p m addr).2).count Ev.evExit =
      if inData p addr then
        (if m.st ≠ PState.Idle ∧ (m.st ≠ PState.Program ∨ addr - p.dataStart < m.pc)
          then 1 else 0)
      else if inConfig p addr then
        (if m.st = PState.Config ∧ addr - p.configStart < m.pc then 1 else 0)
      else
        (if m.st ≠ PState.Idle ∧ (m.st ≠ PState.Program ∨ addr < m.pc)
          then 1 else 0)) ∧
    (((setProgramCounter p m addr).2).count Ev.evEnter =
      if inData p addr then
        (if m.st ≠ PState.Program ∨ addr - p.dataStart < m.pc then 1 else 0)
      else if inConfig p addr then
        (if m.st = PState.Idle ∨ (m.st = PState.Config ∧ addr - p.configStart < m.pc)
          then 1 else 0)
      else
        (if m.st ≠ PState.Program ∨ addr < m.pc then 1 else 0)) :=
  ⟨setPC_count_exit p m addr, setPC_count_enter p m addr⟩

/-- C9: a range whose decoded end address is strictly below its start
address makes `pic_command_read` a no-op that still emits the single empty
"done" response and returns `SP_OK`: no word is read, no buffer write
happens, no "more data" response is emitted. -/
theorem c9_empty_range (p : Profile) (d : Device) (m : Machine)
    (start endAddr : ℕ) (h : endAddr < start) :
    pic_command_read p d m start endAddr =
      { m := m
        writes := []
        responses := [(SPStatus.readDone, 0)]
        ret := SPStatus.ok } := by
  have hn : endAddr + 1 - start = 0 := by omega
  simp only [pic_command_read, hn]
  rfl

/-- Witness for C9 at the concrete empty range `5 .. 3`. -/
theorem c9_empty_range_witness :
    (3 : ℕ) < 5 ∧
    pic_command_read defaultProfile zeroDevice ⟨PState.Idle, 0⟩ 5 3 =
      { m := ⟨PState.Idle, 0⟩
        writes := []
        responses := [(SPStatus.readDone, 0)]
        ret := SPStatus.ok } :=
  ⟨by decide,
    c9_empty_range defaultProfile zeroDevice ⟨PState.Idle, 0⟩ 5 3 (by decide)⟩

set_option maxRecDepth 100000 in
/-- C1 at the failing input: the inclusive range `0 .. 511` covers
`N = 512` words, so the claim (and spec) demand `512 / 256 = 2` "more
data" responses; the code never resets `count` after the first chunk
(pic.c line 391 fires only when `count == 256`), so exactly one "more
data" response is emitted, followed by the single "done" response. -/
theorem c1_read_512_words_emits_one_chunk :
    ((pic_command_read defaultProfile zeroDevice ⟨PState.Idle, 0⟩ 0 511).responses).count
        (SPStatus.readMore, 1024) = 1 ∧
    ((pic_command_read defaultProfile zeroDevice ⟨PState.Idle, 0⟩ 0 511).responses).count
        (SPStatus.readDone, 0) = 1 := by
  decide

set_option maxRecDepth 100000 in
/-- C2 at the failing input: over the inclusive range `0 .. 256`
(`N = 257` words) the 257th word is serialized at byte offset
`count * 4 = 1024` — past the end of the 1024-byte buffer (valid 4-byte
writes start at offsets `0 .. 1020`), because `count` is never reduced
modulo 256. -/
theorem c2_write_offset_escapes_buffer :
    1024 ∈ (pic_command_read defaultProfile zeroDevice ⟨PState.Idle, 0⟩ 0 256).writes := by
  decide

/-- C7: `read_word` first repositions via `set_program_counter`; for an
address in Data bounds it reads with the data-memory opcode and returns
`(raw >> 1) & 0x00FF` (hence an 8-bit value), otherwise it reads with the
program-memory opcode and returns `(raw >> 1) & 0x3FFF` (a 14-bit
value). -/
theorem c7_read_word_structure (p : Profile) (d : Device) (m : Machine) (addr : ℕ) :
    (readWord p d m addr).2.1 = (setProgramCounter p m addr).1 ∧
    (inData p addr →
      (readWord p d m addr).1 =
        (rawRead d (setProgramCounter p m addr).1 CMD_READ_DATA_MEMORY >>> 1) &&& 0x00FF ∧
      (readWord p d m addr).1 < 256) ∧
    (¬ inData p addr →
      (readWord p d m addr).1 =
        (rawRead d (setProgramCounter p m addr).1 CMD_READ_PROGRAM_MEMORY >>> 1) &&& 0x3FFF ∧
      (readWord p d m addr).1 < 16384) := by
  by_cases h : inData p addr
  · have heq : readWord p d m addr =
        ((rawRead d (setProgramCounter p m addr).1 CMD_READ_DATA_MEMORY >>> 1) &&& 0x00FF,
          (setProgramCounter p m addr).1,
          (setProgramCounter p m addr).2 ++ [Ev.evRead CMD_READ_DATA_MEMORY]) := by
      unfold readWord
      rw [if_pos h]
    have hle := Nat.and_le_right
      (n := rawRead d (setProgramCounter p m addr).1 CMD_READ_DATA_MEMORY >>> 1)
      (m := 0x00FF)
    refine ⟨by simp [heq], fun _ => ⟨by simp [heq], ?_⟩, fun h' => absurd h h'⟩
    simp only [heq]
    omega
  · have heq : readWord p d m addr =
        ((rawRead d (setProgramCounter p m addr).1 CMD_READ_PROGRAM_MEMORY >>> 1) &&& 0x3FFF,
          (setProgramCounter p m addr).1,
          (setProgramCounter p m addr).2 ++ [Ev.evRead CMD_READ_PROGRAM_MEMORY]) := by
      unfold readWord
      rw [if_neg h]
    have hle := Nat.and_le_right
      (n := rawRead d (setProgramCounter p m addr).1 CMD_READ_PROGRAM_MEMORY >>> 1)
      (m := 0x3FFF)
    refine ⟨by simp [heq], fun h' => absurd h' h, fun _ => ⟨by simp [heq], ?_⟩⟩
    simp only [heq]
    omega

/-- C10: on a config offset `off` with `configStart + off ≤ configEnd`
(and `configStart + off` outside Data bounds, as invariant 3 of the spec's
data model guarantees for every active profile), the relative-addressing
path `_read_config_word(off)` and the flat path
`_read_word(configStart + off)` return the same value, leave identical
sessions, and even issue the identical hardware command sequence, from
every starting session state. -/
theorem c10_config_paths_agree (p : Profile) (d : Device) (m : Machine) (off : ℕ)
    (h1 : p.configStart + off ≤ p.configEnd)
    (h2 : ¬ inData p (p.configStart + off)) :
    readConfigWord d m off = readWord p d m (p.configStart + off) := by
  have hc : inConfig p (p.configStart + off) := ⟨Nat.le_add_right _ _, h1⟩
  unfold readWord setProgramCounter readConfigWord
  rw [if_neg h2, if_neg h2, if_pos hc, Nat.add_sub_cancel_left]

/-- Witness for C7 at the data address `0x2100` of the default profile. -/
theorem c7_read_word_structure_witness :
    inData defaultProfile 0x2100 ∧
    (readWord defaultProfile zeroDevice ⟨PState.Idle, 0⟩ 0x2100).1 =
      (rawRead zeroDevice (setProgramCounter defaultProfile ⟨PState.Idle, 0⟩ 0x2100).1
          CMD_READ_DATA_MEMORY >>> 1) &&& 0x00FF ∧
    (readWord defaultProfile zeroDevice ⟨PState.Idle, 0⟩ 0x2100).1 < 256 :=
  ⟨by decide,
    ((c7_read_word_structure defaultProfile zeroDevice ⟨PState.Idle, 0⟩ 0x2100).2.1
      (by decide)).1,
    ((c7_read_word_structure defaultProfile zeroDevice ⟨PState.Idle, 0⟩ 0x2100).2.1
      (by decide)).2⟩

/-- Witness for C10 at config offset 3 of the default profile, starting
from `STATE_PROGRAM` with the counter at 7. -/
theorem c10_config_paths_agree_witness :
    defaultProfile.configStart + 3 ≤ defaultProfile.configEnd ∧
    ¬ inData defaultProfile (defaultProfile.configStart + 3) ∧
    readConfigWord zeroDevice ⟨PState.Program, 7⟩ 3 =
      readWord defaultProfile zeroDevice ⟨PState.Program, 7⟩
        (defaultProfile.configStart + 3) :=
  ⟨by decide, by decide,
    c10_config_paths_agree defaultProfile zeroDevice ⟨PState.Program, 7⟩ 3
      (by decide) (by decide)⟩

/-- How `regionOf` values decode into the range tests of the code. -/
lemma regionOf_cases (p : Profile) (a : ℕ) :
    (regionOf p a = Region.data ↔ inData p a) ∧
    (regionOf p a = Region.config ↔ ¬ inData p a ∧ inConfig p a) ∧
    (regionOf p a = Region.program ↔ ¬ inData p a ∧ ¬ inConfig p a) := by
  unfold regionOf
  refine ⟨?_, ?_, ?_⟩ <;> split_ifs with h1 h2 <;> first | tauto | simp_all

/-- C6: for `a1 < a2` in the same region, visiting `a1` then `a2` from
idle powers the device up once (the initial entry into the region) and
never resets; visiting `a2` then `a1` performs exactly one full
exit-and-reenter reset cycle before servicing `a1`. -/
theorem c6_same_region_order (p : Profile) (a1 a2 : ℕ)
    (hr : regionOf p a1 = regionOf p a2) (hlt : a1 < a2) :
    ((setProgramCounter p ⟨PState.Idle, 0⟩ a1).2).count Ev.evEnter = 1 ∧
    ((setProgramCounter p ⟨PState.Idle, 0⟩ a1).2).count Ev.evExit = 0 ∧
    ((setProgramCounter p (setProgramCounter p ⟨PState.Idle, 0⟩ a1).1 a2).2).count Ev.evEnter = 0 ∧
    ((setProgramCounter p (setProgramCounter p ⟨PState.Idle, 0⟩ a1).1 a2).2).count Ev.evExit = 0 ∧
    ((setProgramCounter p ⟨PState.Idle, 0⟩ a2).2).count Ev.evEnter = 1 ∧
    ((setProgramCounter p ⟨PState.Idle, 0⟩ a2).2).count Ev.evExit = 0 ∧
    ((setProgramCounter p (setProgramCounter p ⟨PState.Idle, 0⟩ a2).1 a1).2).count Ev.evEnter = 1 ∧
    ((setProgramCounter p (setProgramCounter p ⟨PState.Idle, 0⟩ a2).1 a1).2).count Ev.evExit = 1 := by
  rcases hR1 : regionOf p a1 with _ | _ | _
  · obtain ⟨hnd1, hnc1⟩ := (regionOf_cases p a1).2.2.1 hR1
    obtain ⟨hnd2, hnc2⟩ := (regionOf_cases p a2).2.2.1 (hr.symm.trans hR1)
    simp [setPC_count_enter, setPC_count_exit, setPC_machine, hnd1, hnd2, hnc1, hnc2]
    repeat' first
      | omega
      | split_ifs
      | simp_all
  · obtain ⟨hnd1, hc1⟩ := (regionOf_cases p a1).2.1.1 hR1
    obtain ⟨hnd2, hc2⟩ := (regionOf_cases p a2).2.1.1 (hr.symm.trans hR1)
    simp [setPC_count_enter, setPC_count_exit, setPC_machine, hnd1, hnd2, hc1, hc2]
    repeat' first
      | omega
      | split_ifs
      | simp_all
  · have hd1 := (regionOf_cases p a1).1.1 hR1
    have hd2 := (regionOf_cases p a2).1.1 (hr.symm.trans hR1)
    simp [setPC_count_enter, setPC_count_exit, setPC_machine, hd1, hd2]
    repeat' first
      | omega
      | split_ifs
      | simp_all

/-- Witness for C6 at the Program-region pair `5 < 9` of the default
profile. -/
theorem c6_same_region_order_witness :
    regionOf defaultProfile 5 = regionOf defaultProfile 9 ∧ (5 : ℕ) < 9 ∧
    (((setProgramCounter defaultProfile
        (setProgramCounter defaultProfile ⟨PState.Idle, 0⟩ 9).1 5).2).count
      Ev.evEnter = 1 ∧
    ((setProgramCounter defaultProfile
        (setProgramCounter defaultProfile ⟨PState.Idle, 0⟩ 9).1 5).2).count
      Ev.evExit = 1) :=
  ⟨by decide, by decide,
    (c6_same_region_order defaultProfile 5 9 (by decide) (by decide)).2.2.2.2.2.2.1,
    (c6_same_region_order defaultProfile 5 9 (by decide) (by decide)).2.2.2.2.2.2.2⟩

/-- `_read_config_word` starting idle: power up, load config, step to
`addr`, read. -/
lemma readConfigWord_idle (d : Device) (pc addr : ℕ) :
    readConfigWord d ⟨PState.Idle, pc⟩ addr =
      (cfgReadValue d addr, ⟨PState.Config, addr⟩,
        [Ev.evEnter, Ev.evWrite CMD_LOAD_CONFIG 0]
          ++ List.replicate addr (Ev.evSimple CMD_INCREMENT_ADDRESS)
          ++ [Ev.evRead CMD_READ_PROGRAM_MEMORY]) := by
  unfold readConfigWord rawRead cfgReadValue enterProgramMode
  simp [CMD_READ_DATA_MEMORY, CMD_READ_PROGRAM_MEMORY]

/-- `_read_config_word` already in config mode, moving forward: only
increments and the read. -/
lemma readConfigWord_step (d : Device) (pc addr : ℕ) (h : pc ≤ addr) :
    readConfigWord d ⟨PState.Config, pc⟩ addr =
      (cfgReadValue d addr, ⟨PState.Config, addr⟩,
        List.replicate (addr - pc) (Ev.evSimple CMD_INCREMENT_ADDRESS)
          ++ [Ev.evRead CMD_READ_PROGRAM_MEMORY]) := by
  unfold readConfigWord rawRead cfgReadValue
  simp [CMD_READ_DATA_MEMORY, CMD_READ_PROGRAM_MEMORY, Nat.not_lt.mpr h,
    Nat.max_eq_right h]

/-- The program-memory scan never runs once a nonzero word is in hand. -/
lemma scanLoop_stop (p : Profile) (d : Device) (fuel word addr : ℕ)
    (m : Machine) (h : word ≠ 0) : scanLoop p d fuel word addr m = (word, m) := by
  cases fuel <;> simp [scanLoop, h]

/-- The six identification reads from any idle session: values straight
from config memory, session left at `(InConfig, 7)`. -/
lemma detectReads_idle (d : Device) (pc : ℕ) :
    detectReads d ⟨PState.Idle, pc⟩ =
      (cfgReadValue d 0, cfgReadValue d 1, cfgReadValue d 2, cfgReadValue d 3,
        cfgReadValue d 6, cfgReadValue d 7, ⟨PState.Config, 7⟩) := by
  unfold detectReads
  simp only [DEV_USERID0, DEV_USERID1, DEV_USERID2, DEV_USERID3, DEV_ID,
    DEV_CONFIG_WORD]
  rw [readConfigWord_idle]
  simp only []
  rw [readConfigWord_step d 0 1 (by norm_num)]
  simp only []
  rw [readConfigWord_step d 1 2 (by norm_num)]
  simp only []
  rw [readConfigWord_step d 2 3 (by norm_num)]
  simp only []
  rw [readConfigWord_step d 3 6 (by norm_num)]
  simp only []
  rw [readConfigWord_step d 6 7 (by norm_num)]

/-- C4 amended: when the device-id word reads 0 or 0x3FFF but the OR of
the other five words is nonzero, the code forces the device id to 0 and
then still runs the ordinary table scan with masked id 0; if no table
entry's pattern is 0 (none is), it reports `DeviceNotDetected` — not
success — and resets the session to the default profile, ending idle. -/
theorem c4_amended_legacy_not_detected (table : List DeviceInfo) (d : Device)
    (p : Profile) (m : Machine)
    (hid : cfgReadValue d DEV_ID = 0 ∨ cfgReadValue d DEV_ID = 0x3FFF)
    (hnz : cfgReadValue d DEV_USERID0 ||| cfgReadValue d DEV_USERID1
        ||| cfgReadValue d DEV_USERID2 ||| cfgReadValue d DEV_USERID3
        ||| cfgReadValue d DEV_CONFIG_WORD ≠ 0)
    (htab : ∀ e ∈ table, e.deviceId ≠ 0) :
    pic_command_detect_device table d p m =
      { m := ⟨PState.Idle, 0⟩
        responses := [(SPStatus.errDeviceNotDetected, none, 0)]
        profile := defaultProfile
        ret := some SPStatus.errDeviceNotDetected } := by
  have hfind : table.find? (fun e => e.deviceId == 0) = none := by
    rw [List.find?_eq_none]
    intro e he
    simpa using htab e he
  obtain ⟨st, pc⟩ := m
  simp only [DEV_USERID0, DEV_USERID1, DEV_USERID2, DEV_USERID3, DEV_ID,
    DEV_CONFIG_WORD] at hid hnz
  have hR : detectReads d (exitProgramMode ⟨st, pc⟩).1 =
      (cfgReadValue d 0, cfgReadValue d 1, cfgReadValue d 2, cfgReadValue d 3,
        cfgReadValue d 6, cfgReadValue d 7, ⟨PState.Config, 7⟩) := by
    cases st <;> simp [exitProgramMode] <;> exact detectReads_idle d _
  unfold pic_command_detect_device
  rw [hR]
  unfold detectCore
  simp only []
  rw [if_pos hid]
  rw [scanLoop_stop p d 16 _ 0 ⟨PState.Config, 7⟩ hnz]
  simp [hnz, detectFinish, hfind, exitProgramMode]

set_option maxRecDepth 100000 in
/-- C3 at the failing input: with a device whose six identification words
and first 16 program words all read zero, detection performs no table
lookup and no profile change and ends idle — but, contrary to the claim,
it emits no response at all and leaves through the value-less `return;`
at pic.c line 324 (`ret := none`), so no `DeviceNotDetected` status ever
reaches the caller. -/
theorem c3_all_zero_run :
    pic_command_detect_device sampleTable zeroDevice defaultProfile ⟨PState.Idle, 0⟩ =
      { m := ⟨PState.Idle, 0⟩
        responses := []
        profile := defaultProfile
        ret := none } := by
  decide

set_option maxRecDepth 100000 in
/-- C4 counterexample: a present-but-unidentifiable legacy device
(device-id word reads 0, user-id word 0 reads 1) makes detection report
`DeviceNotDetected` and reset the profile to the default — it does not
report success with no name as the claim states. -/
theorem c4_counterexample :
    (pic_command_detect_device sampleTable legacyDevice defaultProfile
        ⟨PState.Idle, 0⟩).responses = [(SPStatus.errDeviceNotDetected, none, 0)] ∧
    (pic_command_detect_device sampleTable legacyDevice defaultProfile
        ⟨PState.Idle, 0⟩).ret = some SPStatus.errDeviceNotDetected ∧
    (pic_command_detect_device sampleTable legacyDevice defaultProfile
        ⟨PState.Idle, 0⟩).profile = defaultProfile := by
  decide

/-- Witness for the amended C4 on the legacy device against the sample
table, starting from a powered session. -/
theorem c4_amended_witness :
    (cfgReadValue legacyDevice DEV_ID = 0 ∨ cfgReadValue legacyDevice DEV_ID = 0x3FFF) ∧
    (cfgReadValue legacyDevice DEV_USERID0 ||| cfgReadValue legacyDevice DEV_USERID1
      ||| cfgReadValue legacyDevice DEV_USERID2 ||| cfgReadValue legacyDevice DEV_USERID3
      ||| cfgReadValue legacyDevice DEV_CONFIG_WORD ≠ 0) ∧
    pic_command_detect_device sampleTable legacyDevice defaultProfile ⟨PState.Program, 5⟩ =
      { m := ⟨PState.Idle, 0⟩
        responses := [(SPStatus.errDeviceNotDetected, none, 0)]
        profile := defaultProfile
        ret := some SPStatus.errDeviceNotDetected } :=
  ⟨by decide, by decide,
    c4_amended_legacy_not_detected sampleTable legacyDevice defaultProfile
      ⟨PState.Program, 5⟩ (by decide) (by decide) (by decide)⟩
